import Mathlib

/-!
Shallow embedding of `src/transaction.rs` from `mdbx-rs`: the transaction
lifecycle layer (commit, drop-time abort, nested begin, get/del, database
flag queries) over the MDBX storage engine.

The engine and the transaction manager are external to this file in the
source (foreign calls and a worker thread); they are modelled as oracle
parameters: each foreign call is a function argument giving the engine
response, and the manager rendezvous channel is a `ChanState` value saying
whether the send fails, the reply never arrives, or a reply is delivered.

Each lifecycle operation additionally returns a trace of events (mutex
lock/unlock, direct foreign calls, message send, blocking receive) in the
order the source performs them, so that locking-discipline claims can be
stated about the order of events.
-/

namespace Mdbx

/-- Engine status code for success, from the ffi bindings. -/
def MDBX_SUCCESS : Int := 0

/-- Engine status code MDBX_RESULT_TRUE, from the ffi bindings. -/
def MDBX_RESULT_TRUE : Int := -1

/-- Engine status code for a missing key/value/database, from the ffi bindings. -/
def MDBX_NOTFOUND : Int := -30798

/-- Transaction open flag for read-write transactions (`RW::OPEN_FLAGS`). -/
def MDBX_TXN_READWRITE : Int := 0

/-- Transaction open flag for read-only transactions (`RO::OPEN_FLAGS`). -/
def MDBX_TXN_RDONLY : Int := 0x20000

/-- The typed error of the wrapper: `NotFound` for the engine missing-entry
code, `Code c` for any other engine code (`Error::from_err_code`). -/
inductive Error where
  | NotFound : Error
  | Code (c : Int) : Error
deriving DecidableEq

/-- Modelled from the spec: `Error::from_err_code` lives in `error.rs`,
which is not under `src/`; per the spec taxonomy the missing-entry code maps
to `NotFound` and every other code is carried through unmapped. -/
def Error.fromErrCode (c : Int) : Error :=
  if c = MDBX_NOTFOUND then Error.NotFound else Error.Code c

/-- Modelled from the spec: `mdbx_result` lives in `error.rs`, which is not
under `src/`; the spec gives `commit(pointer) -> did_full_sync:bool | error`,
and the engine convention is success = 0, RESULT_TRUE = -1 (the bool), any
other code an error. -/
def mdbx_result (rc : Int) : Except Error Bool :=
  if rc = MDBX_SUCCESS then Except.ok false
  else if rc = MDBX_RESULT_TRUE then Except.ok true
  else Except.error (Error.fromErrCode rc)

instance {ε α : Type} [DecidableEq ε] [DecidableEq α] : DecidableEq (Except ε α) := fun x y =>
  match x, y with
  | Except.ok a, Except.ok b =>
    if h : a = b then isTrue (by rw [h]) else isFalse (fun hh => by cases hh; exact h rfl)
  | Except.error a, Except.error b =>
    if h : a = b then isTrue (by rw [h]) else isFalse (fun hh => by cases hh; exact h rfl)
  | Except.ok _, Except.error _ => isFalse (fun hh => by cases hh)
  | Except.error _, Except.ok _ => isFalse (fun hh => by cases hh)

/-- A database handle: a thin wrapper around a numeric dbi
(`Database` with `Database::new_from_ptr`). -/
structure Database where
  dbi : Nat
deriving DecidableEq

/-- Mirrors `Database::new_from_ptr(dbi)`. -/
def Database.new_from_ptr (dbi : Nat) : Database := { dbi := dbi }

/-- The state of a `Transaction` handle that the claims concern: the native
pointer (modelled as a number), the ordered primed-dbi set (`IndexSet`,
modelled as a duplicate-free list in insertion order), and the `committed`
flag. The environment reference and phantom kind tag carry no data. -/
structure TxnState where
  ptr : Nat
  primedDbis : List Nat
  committed : Bool
deriving DecidableEq

/-- Mirrors `Transaction::new_from_ptr`: fresh handle on a pointer, with
`committed = false` and an empty primed set. -/
def Transaction.new_from_ptr (p : Nat) : TxnState :=
  { ptr := p, primedDbis := [], committed := false }

/-- Mirrors `IndexSet::insert`: append the element if it is not already
present, keeping first-insertion order. -/
def indexSetInsert (s : List Nat) (x : Nat) : List Nat :=
  if x ∈ s then s else s ++ [x]

/-- Mirrors `Transaction::prime_for_permaopen`: insert the dbi into the
primed set. -/
def prime_for_permaopen (st : TxnState) (dbi : Nat) : TxnState :=
  { st with primedDbis := indexSetInsert st.primedDbis dbi }

/-- Priming a sequence of dbis one after the other. -/
def primeAll (st : TxnState) (dbis : List Nat) : TxnState :=
  dbis.foldl prime_for_permaopen st

/-- The messages sent to the transaction manager (`TxnManagerMessage`),
without their reply channels. -/
inductive Msg where
  | Begin (parent : Nat) (flags : Int) : Msg
  | Commit (tx : Nat) : Msg
  | Abort (tx : Nat) : Msg
deriving DecidableEq

/-- Events a lifecycle operation performs, in source order: taking and
releasing the per-pointer mutex, direct foreign calls, sending a manager
message, and blocking on the rendezvous receive. -/
inductive Event where
  | lock : Event
  | unlock : Event
  | callCommitEx (ptr : Nat) : Event
  | callAbort (ptr : Nat) : Event
  | callGet (ptr dbi : Nat) (key : List Nat) : Event
  | callDel (ptr dbi : Nat) (key : List Nat) (dataArg : Option (List Nat)) : Event
  | send (m : Msg) : Event
  | recv : Event
deriving DecidableEq

/-- State of a manager rendezvous exchange as seen by the caller:
the channel to the manager is closed (send fails), the reply channel was
dropped without a reply (receive fails), or a reply is delivered. -/
inductive ChanState (α : Type) where
  | closed : ChanState α
  | dropped : ChanState α
  | reply (a : α) : ChanState α
deriving DecidableEq

/-- Outcome of an operation that may panic (an `unwrap` on a failed channel
operation or on an error reply). -/
inductive Outcome (α : Type) where
  | ok (a : α) : Outcome α
  | panic : Outcome α
deriving DecidableEq

/-- Mirrors `Transaction::commit_and_rebind_open_dbs`. Arguments: whether
the kind is read-only (`K::ONLY_CLEAN`), the engine commit call
(`mdbx_txn_commit_ex`, as a status code per pointer), the manager exchange
for a `Commit` message, and the handle state. Returns the outcome (the
result value with the rebound database handles, or a panic), the state of
the consumed handle at function exit (which is then dropped, running the
`Drop` impl), and the event trace up to the return or panic point. -/
def commit_and_rebind_open_dbs (onlyClean : Bool) (commitEx : Nat → Int)
    (mgr : ChanState (Except Error Bool)) (st : TxnState) :
    Outcome (Except Error (Bool × List Database)) × TxnState × List Event :=
  let txn := st.ptr
  if onlyClean then
    let result := mdbx_result (commitEx txn)
    let st2 := { st with committed := true }
    (Outcome.ok (result.map (fun v => (v, st2.primedDbis.map Database.new_from_ptr))),
      st2, [Event.lock, Event.callCommitEx txn, Event.unlock])
  else
    match mgr with
    | ChanState.closed =>
      (Outcome.panic, st, [Event.lock, Event.send (Msg.Commit txn)])
    | ChanState.dropped =>
      (Outcome.panic, st, [Event.lock, Event.send (Msg.Commit txn), Event.recv])
    | ChanState.reply r =>
      let st2 := { st with committed := true }
      (Outcome.ok (r.map (fun v => (v, st2.primedDbis.map Database.new_from_ptr))),
        st2, [Event.lock, Event.send (Msg.Commit txn), Event.recv, Event.unlock])

/-- Mirrors `Transaction::commit`: `commit_and_rebind_open_dbs` with the
database handles discarded. -/
def commit (onlyClean : Bool) (commitEx : Nat → Int)
    (mgr : ChanState (Except Error Bool)) (st : TxnState) :
    Outcome (Except Error Bool) × TxnState × List Event :=
  match commit_and_rebind_open_dbs onlyClean commitEx mgr st with
  | (Outcome.ok r, st2, tr) => (Outcome.ok (r.map Prod.fst), st2, tr)
  | (Outcome.panic, st2, tr) => (Outcome.panic, st2, tr)

/-- Mirrors `Drop for Transaction`: under the pointer lock, do nothing when
`committed`; otherwise abort directly (read-only) or send an `Abort`
message and block for the acknowledgment (read-write), panicking if the
channel is closed, the reply is missing, or the reply is an error. -/
def drop (onlyClean : Bool) (mgr : ChanState (Except Error Bool)) (st : TxnState) :
    Outcome Unit × List Event :=
  if st.committed then
    (Outcome.ok (), [Event.lock, Event.unlock])
  else if onlyClean then
    (Outcome.ok (), [Event.lock, Event.callAbort st.ptr, Event.unlock])
  else
    match mgr with
    | ChanState.closed =>
      (Outcome.panic, [Event.lock, Event.send (Msg.Abort st.ptr)])
    | ChanState.dropped =>
      (Outcome.panic, [Event.lock, Event.send (Msg.Abort st.ptr), Event.recv])
    | ChanState.reply (Except.ok _) =>
      (Outcome.ok (), [Event.lock, Event.send (Msg.Abort st.ptr), Event.recv, Event.unlock])
    | ChanState.reply (Except.error _) =>
      (Outcome.panic, [Event.lock, Event.send (Msg.Abort st.ptr), Event.recv])

/-- Mirrors `Transaction::get`: under the pointer lock, one `mdbx_get`
call (an oracle from pointer, dbi and key to a status code and the filled
data value); success decodes the value, the missing-entry code becomes
`Ok(None)`, any other code becomes the mapped error. -/
def get {A : Type} (decode_val : List Nat → Except Error A)
    (mdbx_get : Nat → Nat → List Nat → Int × List Nat)
    (st : TxnState) (dbi : Nat) (key : List Nat) :
    Except Error (Option A) × List Event :=
  let rcData := mdbx_get st.ptr dbi key
  let r :=
    if rcData.1 = MDBX_SUCCESS then (decode_val rcData.2).map some
    else if rcData.1 = MDBX_NOTFOUND then Except.ok none
    else Except.error (Error.fromErrCode rcData.1)
  (r, [Event.lock, Event.callGet st.ptr dbi key, Event.unlock])

/-- Mirrors `Transaction::del` (read-write only): under the pointer lock,
one `mdbx_del` call receiving the optional data argument verbatim (null
when absent); success maps to `true`, `NotFound` to `false`, any other
error propagates. -/
def del (mdbx_del : Nat → Nat → List Nat → Option (List Nat) → Int)
    (st : TxnState) (dbi : Nat) (key : List Nat) (data : Option (List Nat)) :
    Except Error Bool × List Event :=
  let rc :=
    match data with
    | some d => mdbx_del st.ptr dbi key (some d)
    | none => mdbx_del st.ptr dbi key none
  let r :=
    match mdbx_result rc with
    | Except.ok _ => Except.ok true
    | Except.error Error.NotFound => Except.ok false
    | Except.error other => Except.error other
  (r, [Event.lock, Event.callDel st.ptr dbi key data, Event.unlock])

/-- Mirrors `Transaction::begin_nested_txn`, which exists only on the
read-write, non-write-map handle type: under the parent pointer lock, send
a `Begin` message carrying the parent pointer and the read-write open
flags, block for the reply, and build a fresh child handle from the
returned pointer. -/
def begin_nested_txn (mgr : ChanState (Except Error Nat)) (st : TxnState) :
    Outcome (Except Error TxnState) × List Event :=
  match mgr with
  | ChanState.closed =>
    (Outcome.panic, [Event.lock, Event.send (Msg.Begin st.ptr MDBX_TXN_READWRITE)])
  | ChanState.dropped =>
    (Outcome.panic,
      [Event.lock, Event.send (Msg.Begin st.ptr MDBX_TXN_READWRITE), Event.recv])
  | ChanState.reply r =>
    (Outcome.ok (r.map Transaction.new_from_ptr),
      [Event.lock, Event.send (Msg.Begin st.ptr MDBX_TXN_READWRITE), Event.recv, Event.unlock])

/-- Modelled from the spec: the known flag bits of `DatabaseFlags` live in
`flags.rs`, which is not under `src/`; the values follow the engine flag
constants (reverse-key, dup-sort, integer-key, dup-fixed, integer-dup,
reverse-dup, create, accede). -/
def DatabaseFlags_all : Nat :=
  0x02 ||| 0x04 ||| 0x08 ||| 0x10 ||| 0x20 ||| 0x40 ||| 0x40000 ||| 0x40000000

/-- Mirrors the bitflags truncating conversion used by `db_flags`: keep
only the known bits. -/
def from_bits_truncate (bits : Nat) : Nat := bits &&& DatabaseFlags_all

/-- Mirrors `Transaction::db_flags`: one `mdbx_dbi_flags_ex` call (an
oracle from pointer and dbi to a status code and the flags out-parameter);
on success the raw engine flags go through the truncating conversion. -/
def db_flags (dbiFlagsEx : Nat → Nat → Int × Nat) (st : TxnState) (dbi : Nat) :
    Except Error Nat :=
  let rcFlags := dbiFlagsEx st.ptr dbi
  (mdbx_result rcFlags.1).map (fun _ => from_bits_truncate rcFlags.2)

/-- Position of the first occurrence of an event in a trace. -/
def firstIdx (tr : List Event) (e : Event) : Option Nat :=
  tr.findIdx? (fun x => decide (x = e))

/-- Does the trace release the mutex before the blocking receive? True when
there is no receive at all, and otherwise exactly when the first unlock
comes before the first receive. -/
def unlockBeforeRecv (tr : List Event) : Bool :=
  match firstIdx tr Event.unlock, firstIdx tr Event.recv with
  | _, none => true
  | some u, some r => decide (u < r)
  | none, some _ => false

/-- The distinct dbis of a priming sequence in order of first occurrence:
the specification-side reading of the ordered primed set. -/
def firstPrimedOrder : List Nat → List Nat
  | [] => []
  | d :: ds => d :: firstPrimedOrder (ds.filter (fun x => decide (x ≠ d)))
termination_by l => l.length
decreasing_by
  simp only [List.length_cons]
  exact Nat.lt_succ_of_le (List.length_filter_le _ _)

/-- Unfolding equation of `firstPrimedOrder` on a cons cell. -/
theorem firstPrimedOrder_cons (d : Nat) (ds : List Nat) :
    firstPrimedOrder (d :: ds) =
      d :: firstPrimedOrder (ds.filter (fun x => decide (x ≠ d))) := by
  rw [firstPrimedOrder]

/-- Folding `IndexSet::insert` over a sequence appends, after the starting
set, the unseen elements in order of first occurrence. -/
theorem foldl_indexSetInsert (dbis : List Nat) :
    ∀ acc : List Nat,
      dbis.foldl indexSetInsert acc =
        acc ++ firstPrimedOrder (dbis.filter (fun x => decide (x ∉ acc))) := by
  induction dbis with
  | nil => intro acc; simp [firstPrimedOrder]
  | cons d ds ih =>
    intro acc
    by_cases hd : d ∈ acc
    · have h1 : indexSetInsert acc d = acc := by simp [indexSetInsert, hd]
      have h2 : (d :: ds).filter (fun x => decide (x ∉ acc)) =
          ds.filter (fun x => decide (x ∉ acc)) := by
        simp [List.filter_cons, hd]
      rw [List.foldl_cons, h1, h2, ih acc]
    · have h1 : indexSetInsert acc d = acc ++ [d] := by simp [indexSetInsert, hd]
      have h2 : (d :: ds).filter (fun x => decide (x ∉ acc)) =
          d :: ds.filter (fun x => decide (x ∉ acc)) := by
        simp [List.filter_cons, hd]
      have h3 : ds.filter (fun x => decide (x ∉ acc ++ [d])) =
          (ds.filter (fun x => decide (x ∉ acc))).filter (fun x => decide (x ≠ d)) := by
        rw [List.filter_filter]
        apply List.filter_congr
        intro x _
        by_cases hxd : x = d
        · subst hxd; simp [List.mem_append]
        · by_cases hxa : x ∈ acc <;> simp [List.mem_append, hxd, hxa]
      rw [List.foldl_cons, h1, ih (acc ++ [d]), h2, firstPrimedOrder_cons, h3,
        List.append_assoc]
      rfl

/-- The primed set accumulated by `prime_for_permaopen` over a fresh handle
is exactly the distinct dbis in order of first priming. -/
theorem primeAll_primedDbis (p : Nat) (dbis : List Nat) :
    (primeAll (Transaction.new_from_ptr p) dbis).primedDbis = firstPrimedOrder dbis := by
  have hfold : ∀ (l : List Nat) (st : TxnState),
      (primeAll st l).primedDbis = l.foldl indexSetInsert st.primedDbis := by
    intro l
    induction l with
    | nil => intro st; rfl
    | cons d ds ih =>
      intro st
      simp only [primeAll, List.foldl_cons] at *
      rw [ih (prime_for_permaopen st d)]
      rfl
  rw [hfold, foldl_indexSetInsert]
  simp [Transaction.new_from_ptr]

/-- Membership in the first-occurrence ordering is membership in the
priming sequence. -/
theorem mem_firstPrimedOrder (x : Nat) (l : List Nat) :
    x ∈ firstPrimedOrder l ↔ x ∈ l := by
  have key : ∀ (n : Nat) (l : List Nat), l.length ≤ n → ∀ x : Nat,
      (x ∈ firstPrimedOrder l ↔ x ∈ l) := by
    intro n
    induction n with
    | zero =>
      intro l hl x
      have : l = [] := List.length_eq_zero.mp (Nat.le_zero.mp hl)
      subst this
      simp [firstPrimedOrder]
    | succ n ih =>
      intro l hl x
      match l with
      | [] => simp [firstPrimedOrder]
      | d :: ds =>
        rw [firstPrimedOrder_cons]
        have hlen : (ds.filter (fun x => decide (x ≠ d))).length ≤ n :=
          Nat.le_trans (List.length_filter_le _ _)
            (Nat.le_of_succ_le_succ hl)
        have hih := ih (ds.filter (fun x => decide (x ≠ d))) hlen x
        rw [List.mem_cons, hih, List.mem_filter, List.mem_cons]
        by_cases hxd : x = d <;> simp [hxd]
  exact key l.length l (Nat.le_refl _) x

/-- The first-occurrence ordering has no duplicates. -/
theorem firstPrimedOrder_nodup (l : List Nat) : (firstPrimedOrder l).Nodup := by
  have key : ∀ (n : Nat) (l : List Nat), l.length ≤ n → (firstPrimedOrder l).Nodup := by
    intro n
    induction n with
    | zero =>
      intro l hl
      have : l = [] := List.length_eq_zero.mp (Nat.le_zero.mp hl)
      subst this
      simp [firstPrimedOrder]
    | succ n ih =>
      intro l hl
      match l with
      | [] => simp [firstPrimedOrder]
      | d :: ds =>
        rw [firstPrimedOrder_cons]
        have hlen : (ds.filter (fun x => decide (x ≠ d))).length ≤ n :=
          Nat.le_trans (List.length_filter_le _ _)
            (Nat.le_of_succ_le_succ hl)
        rw [List.nodup_cons]
        refine ⟨?_, ih _ hlen⟩
        intro hmem
        have := (mem_firstPrimedOrder d _).mp hmem
        rw [List.mem_filter] at this
        simp at this
  exact key l.length l (Nat.le_refl _)

/-- Unfolding equation of `firstPrimedOrder` on the empty list. -/
theorem firstPrimedOrder_nil : firstPrimedOrder [] = [] := by
  rw [firstPrimedOrder]

/-- C1 counterexample: with an engine whose commit call fails with code
-30788, committing a read-only transaction returns that error, yet the
committed flag of the consumed handle is true, not false, so the drop of
the handle issues no abort at all. -/
theorem C1_counterexample :
    (commit_and_rebind_open_dbs true (fun _ => -30788) (ChanState.reply (Except.ok false))
        (Transaction.new_from_ptr 1)).1 =
      Outcome.ok (Except.error (Error.Code (-30788))) ∧
    (commit_and_rebind_open_dbs true (fun _ => -30788) (ChanState.reply (Except.ok false))
        (Transaction.new_from_ptr 1)).2.1.committed = true ∧
    (drop true (ChanState.reply (Except.ok false))
        (commit_and_rebind_open_dbs true (fun _ => -30788) (ChanState.reply (Except.ok false))
          (Transaction.new_from_ptr 1)).2.1).2 = [Event.lock, Event.unlock] := by
  refine ⟨rfl, rfl, rfl⟩

/-- C1 (amended): whenever a commit attempt returns (with a success or with
an engine error alike), the committed flag of the consumed handle is set to
true, so the drop of that handle at the end of commit never issues an
abort; only a panic on the manager channel leaves the flag as it was. -/
theorem C1_theorem (onlyClean : Bool) (commitEx : Nat → Int)
    (mgr mgr2 : ChanState (Except Error Bool)) (oc2 : Bool) (st : TxnState)
    (hok : (commit_and_rebind_open_dbs onlyClean commitEx mgr st).1 ≠ Outcome.panic) :
    (commit_and_rebind_open_dbs onlyClean commitEx mgr st).2.1.committed = true ∧
    (drop oc2 mgr2 (commit_and_rebind_open_dbs onlyClean commitEx mgr st).2.1).2 =
      [Event.lock, Event.unlock] ∧
    (drop oc2 mgr2 (commit_and_rebind_open_dbs onlyClean commitEx mgr st).2.1).1 =
      Outcome.ok () := by
  cases onlyClean with
  | true => exact ⟨rfl, by simp [commit_and_rebind_open_dbs, drop], by
      simp [commit_and_rebind_open_dbs, drop]⟩
  | false =>
    cases mgr with
    | closed => exact absurd rfl hok
    | dropped => exact absurd rfl hok
    | reply r => exact ⟨rfl, by simp [commit_and_rebind_open_dbs, drop], by
        simp [commit_and_rebind_open_dbs, drop]⟩

/-- C1 witness: a failed read-write commit at a concrete input still sets
the flag, and the ensuing drop does nothing but lock and unlock. -/
theorem C1_witness :
    (drop false ChanState.closed
        (commit_and_rebind_open_dbs false (fun _ => 0)
          (ChanState.reply (Except.error (Error.Code 5)))
          (Transaction.new_from_ptr 5)).2.1).2 = [Event.lock, Event.unlock] :=
  (C1_theorem false (fun _ => 0) (ChanState.reply (Except.error (Error.Code 5)))
    ChanState.closed false (Transaction.new_from_ptr 5) (by decide)).2.1

/-- C2 counterexample: for all three manager-routed lifecycle operations
(read-write commit, read-write drop-time abort, nested begin) at a concrete
input, the first unlock does not precede the blocking receive: the mutex is
held across the wait for the manager reply. -/
theorem C2_counterexample :
    unlockBeforeRecv (commit_and_rebind_open_dbs false (fun _ => 0)
        (ChanState.reply (Except.ok false)) (Transaction.new_from_ptr 1)).2.2 = false ∧
    unlockBeforeRecv (drop false (ChanState.reply (Except.ok false))
        (Transaction.new_from_ptr 1)).2 = false ∧
    unlockBeforeRecv (begin_nested_txn (ChanState.reply (Except.ok 2))
        (Transaction.new_from_ptr 1)).2 = false := by
  decide

/-- C2 (amended): for each manager-routed lifecycle operation the trace is
lock, send, blocking receive, unlock — the mutex is acquired before the
message is sent and released only after the rendezvous reply arrives, so
the lock is held across the blocking wait (which is what keeps any other
foreign call off the pointer while the manager owns it). -/
theorem C2_theorem (commitEx : Nat → Int) (r : Except Error Bool) (b : Bool)
    (q : Except Error Nat) (st : TxnState) (h : st.committed = false) :
    (commit_and_rebind_open_dbs false commitEx (ChanState.reply r) st).2.2 =
      [Event.lock, Event.send (Msg.Commit st.ptr), Event.recv, Event.unlock] ∧
    (drop false (ChanState.reply (Except.ok b)) st).2 =
      [Event.lock, Event.send (Msg.Abort st.ptr), Event.recv, Event.unlock] ∧
    (begin_nested_txn (ChanState.reply q) st).2 =
      [Event.lock, Event.send (Msg.Begin st.ptr MDBX_TXN_READWRITE), Event.recv,
        Event.unlock] := by
  refine ⟨rfl, by simp [drop, h], rfl⟩

/-- C2 witness: the drop-time abort trace at a concrete uncommitted
read-write handle. -/
theorem C2_witness :
    (drop false (ChanState.reply (Except.ok true)) (Transaction.new_from_ptr 4)).2 =
      [Event.lock, Event.send (Msg.Abort 4), Event.recv, Event.unlock] :=
  (C2_theorem (fun _ => 0) (Except.ok false) true (Except.ok 9)
    (Transaction.new_from_ptr 4) rfl).2.1

/-- C3: read-only commit performs the foreign commit call directly (its
trace is one engine call under the lock, no message), returning the mapped
engine result; read-write commit performs no direct engine call: it sends a
Commit message with the pointer, blocks on the receive, and returns the
manager reply verbatim. -/
theorem C3_theorem (commitEx : Nat → Int) (mgr : ChanState (Except Error Bool))
    (r : Except Error Bool) (st : TxnState) :
    ((commit true commitEx mgr st).1 = Outcome.ok (mdbx_result (commitEx st.ptr)) ∧
      (commit true commitEx mgr st).2.2 =
        [Event.lock, Event.callCommitEx st.ptr, Event.unlock]) ∧
    ((commit false commitEx (ChanState.reply r) st).1 = Outcome.ok r ∧
      (commit false commitEx (ChanState.reply r) st).2.2 =
        [Event.lock, Event.send (Msg.Commit st.ptr), Event.recv, Event.unlock]) := by
  refine ⟨⟨?_, rfl⟩, ⟨?_, rfl⟩⟩
  · cases h : mdbx_result (commitEx st.ptr) <;>
      simp [commit, commit_and_rebind_open_dbs, h, Except.map]
  · cases r <;> simp [commit, commit_and_rebind_open_dbs, Except.map]

/-- C3 witness: a read-write commit at a concrete input returns the manager
reported full-sync boolean. -/
theorem C3_witness :
    (commit false (fun _ => 0) (ChanState.reply (Except.ok true))
        (Transaction.new_from_ptr 2)).1 = Outcome.ok (Except.ok true) :=
  (C3_theorem (fun _ => 0) ChanState.closed (Except.ok true)
    (Transaction.new_from_ptr 2)).2.1

/-- C4: dropping an uncommitted read-only handle calls the foreign abort
directly; dropping an uncommitted read-write handle sends an Abort message
and blocks for the acknowledgment; dropping a committed handle issues no
abort of any kind. -/
theorem C4_theorem (mgr : ChanState (Except Error Bool)) (b : Bool) (st stc : TxnState)
    (h : st.committed = false) (hc : stc.committed = true) :
    (drop true mgr st).2 = [Event.lock, Event.callAbort st.ptr, Event.unlock] ∧
    ((drop false (ChanState.reply (Except.ok b)) st).2 =
        [Event.lock, Event.send (Msg.Abort st.ptr), Event.recv, Event.unlock] ∧
      (drop false (ChanState.reply (Except.ok b)) st).1 = Outcome.ok ()) ∧
    (∀ (oc : Bool) (mgr2 : ChanState (Except Error Bool)),
      (drop oc mgr2 stc).2 = [Event.lock, Event.unlock]) := by
  exact ⟨by simp [drop, h], ⟨by simp [drop, h], by simp [drop, h]⟩,
    fun oc mgr2 => by simp [drop, hc]⟩

/-- C4 witness: dropping a concrete uncommitted read-only handle aborts
directly. -/
theorem C4_witness :
    (drop true ChanState.closed (Transaction.new_from_ptr 3)).2 =
      [Event.lock, Event.callAbort 3, Event.unlock] :=
  (C4_theorem ChanState.closed false (Transaction.new_from_ptr 3)
    { ptr := 3, primedDbis := [], committed := true } rfl rfl).1

/-- C5: get returns Ok(None) on the engine not-found code, the decoded
value on engine success, and the mapped error for any other code, which is
surfaced unchanged as that code; an engine not-found is never surfaced as
an error from get. -/
theorem C5_theorem {A : Type} (decode_val : List Nat → Except Error A)
    (mdbx_get : Nat → Nat → List Nat → Int × List Nat)
    (st : TxnState) (dbi : Nat) (key : List Nat) :
    ((mdbx_get st.ptr dbi key).1 = MDBX_NOTFOUND →
      (get decode_val mdbx_get st dbi key).1 = Except.ok none) ∧
    ((mdbx_get st.ptr dbi key).1 = MDBX_SUCCESS →
      (get decode_val mdbx_get st dbi key).1 =
        (decode_val (mdbx_get st.ptr dbi key).2).map some) ∧
    ((mdbx_get st.ptr dbi key).1 ≠ MDBX_SUCCESS →
      (mdbx_get st.ptr dbi key).1 ≠ MDBX_NOTFOUND →
      (get decode_val mdbx_get st dbi key).1 =
        Except.error (Error.Code (mdbx_get st.ptr dbi key).1)) ∧
    ((mdbx_get st.ptr dbi key).1 ≠ MDBX_SUCCESS →
      (get decode_val mdbx_get st dbi key).1 ≠ Except.error Error.NotFound) := by
  refine ⟨?_, ?_, ?_, ?_⟩
  · intro h
    simp [get, h, MDBX_NOTFOUND, MDBX_SUCCESS]
  · intro h
    simp [get, h]
  · intro h1 h2
    simp [get, h1, h2, Error.fromErrCode]
  · intro h1
    by_cases h2 : (mdbx_get st.ptr dbi key).1 = MDBX_NOTFOUND
    · simp [get, h1, h2, MDBX_NOTFOUND, MDBX_SUCCESS]
    · simp [get, h1, h2, Error.fromErrCode]

/-- C5 witness: get at a concrete engine reporting not-found returns
Ok(None). -/
theorem C5_witness :
    (get (fun d => Except.ok d) (fun _ _ _ => (MDBX_NOTFOUND, []))
        (Transaction.new_from_ptr 1) 2 [7]).1 = Except.ok none :=
  (C5_theorem (fun d => Except.ok d) (fun _ _ _ => (MDBX_NOTFOUND, []))
    (Transaction.new_from_ptr 1) 2 [7]).1 rfl

/-- C6: del passes the optional value argument verbatim to the engine call
(the present value for Some, null for None), returns Ok(true) when the
engine reports success, Ok(false) when it reports not-found, and propagates
every other engine code as an error. -/
theorem C6_theorem (mdbx_del : Nat → Nat → List Nat → Option (List Nat) → Int)
    (st : TxnState) (dbi : Nat) (key v : List Nat) (data : Option (List Nat)) :
    ((del mdbx_del st dbi key (some v)).2 =
      [Event.lock, Event.callDel st.ptr dbi key (some v), Event.unlock]) ∧
    ((del mdbx_del st dbi key none).2 =
      [Event.lock, Event.callDel st.ptr dbi key none, Event.unlock]) ∧
    ((mdbx_del st.ptr dbi key data = MDBX_SUCCESS ∨
        mdbx_del st.ptr dbi key data = MDBX_RESULT_TRUE) →
      (del mdbx_del st dbi key data).1 = Except.ok true) ∧
    (mdbx_del st.ptr dbi key data = MDBX_NOTFOUND →
      (del mdbx_del st dbi key data).1 = Except.ok false) ∧
    (mdbx_del st.ptr dbi key data ≠ MDBX_SUCCESS →
      mdbx_del st.ptr dbi key data ≠ MDBX_RESULT_TRUE →
      mdbx_del st.ptr dbi key data ≠ MDBX_NOTFOUND →
      (del mdbx_del st dbi key data).1 =
        Except.error (Error.Code (mdbx_del st.ptr dbi key data))) := by
  refine ⟨rfl, rfl, ?_, ?_, ?_⟩
  · intro h
    cases data <;> rcases h with h | h <;>
      simp [del, h, mdbx_result, MDBX_SUCCESS, MDBX_RESULT_TRUE]
  · intro h
    cases data <;>
      simp [del, h, mdbx_result, Error.fromErrCode,
        MDBX_SUCCESS, MDBX_RESULT_TRUE, MDBX_NOTFOUND]
  · intro h1 h2 h3
    cases data <;>
      simp [del, h1, h2, h3, mdbx_result, Error.fromErrCode]

/-- C6 witness: del with no value at a concrete engine reporting not-found
returns Ok(false). -/
theorem C6_witness :
    (del (fun _ _ _ _ => MDBX_NOTFOUND) (Transaction.new_from_ptr 1) 2 [3] none).1 =
      Except.ok false :=
  ((C6_theorem (fun _ _ _ _ => MDBX_NOTFOUND) (Transaction.new_from_ptr 1)
    2 [3] [9] none).2.2.2).1 rfl

/-- C7: with the manager channel closed (send fails) or the reply channel
dropped (receive fails), a read-write commit, an uncommitted read-write
drop, and a nested begin all end in a panic, never in a normal return. -/
theorem C7_theorem (commitEx : Nat → Int) (st : TxnState) (h : st.committed = false) :
    ((commit_and_rebind_open_dbs false commitEx ChanState.closed st).1 = Outcome.panic ∧
      (commit_and_rebind_open_dbs false commitEx ChanState.dropped st).1 = Outcome.panic) ∧
    ((drop false ChanState.closed st).1 = Outcome.panic ∧
      (drop false ChanState.dropped st).1 = Outcome.panic) ∧
    ((begin_nested_txn ChanState.closed st).1 = Outcome.panic ∧
      (begin_nested_txn ChanState.dropped st).1 = Outcome.panic) := by
  exact ⟨⟨rfl, rfl⟩, ⟨by simp [drop, h], by simp [drop, h]⟩, ⟨rfl, rfl⟩⟩

/-- C7 witness: a read-write commit against a closed manager channel at a
concrete input panics. -/
theorem C7_witness :
    (commit_and_rebind_open_dbs false (fun _ => 0) ChanState.closed
        (Transaction.new_from_ptr 1)).1 = Outcome.panic :=
  ((C7_theorem (fun _ => 0) (Transaction.new_from_ptr 1) rfl).1).1

/-- Priming never changes the native pointer of the handle. -/
theorem primeAll_ptr (st : TxnState) (dbis : List Nat) :
    (primeAll st dbis).ptr = st.ptr := by
  induction dbis generalizing st with
  | nil => rfl
  | cons d ds ih =>
    have h := ih (prime_for_permaopen st d)
    simpa [primeAll, List.foldl_cons] using h

/-- C8: for every transaction kind, a successful commit returns one
database handle per distinct primed dbi, in order of first priming (no
duplicates, and exactly the primed dbis), and a commit ending in an error
returns that error and no handles: for read-write via the manager reply,
for read-only via the direct engine commit call. -/
theorem C8_theorem (p : Nat) (dbis : List Nat) (commitEx : Nat → Int)
    (b : Bool) (e : Error) (mgr : ChanState (Except Error Bool)) :
    ((commit_and_rebind_open_dbs false commitEx (ChanState.reply (Except.ok b))
        (primeAll (Transaction.new_from_ptr p) dbis)).1 =
      Outcome.ok (Except.ok (b, (firstPrimedOrder dbis).map Database.new_from_ptr))) ∧
    ((commit_and_rebind_open_dbs false commitEx (ChanState.reply (Except.error e))
        (primeAll (Transaction.new_from_ptr p) dbis)).1 =
      Outcome.ok (Except.error e)) ∧
    ((mdbx_result (commitEx p) = Except.ok b →
      (commit_and_rebind_open_dbs true commitEx mgr
          (primeAll (Transaction.new_from_ptr p) dbis)).1 =
        Outcome.ok (Except.ok (b, (firstPrimedOrder dbis).map Database.new_from_ptr))) ∧
     (mdbx_result (commitEx p) = Except.error e →
      (commit_and_rebind_open_dbs true commitEx mgr
          (primeAll (Transaction.new_from_ptr p) dbis)).1 =
        Outcome.ok (Except.error e))) ∧
    (firstPrimedOrder dbis).Nodup ∧
    (∀ x : Nat, x ∈ firstPrimedOrder dbis ↔ x ∈ dbis) := by
  refine ⟨?_, ?_, ⟨?_, ?_⟩, firstPrimedOrder_nodup dbis,
    fun x => mem_firstPrimedOrder x dbis⟩
  · simp [commit_and_rebind_open_dbs, Except.map, primeAll_primedDbis]
  · simp [commit_and_rebind_open_dbs, Except.map]
  · intro h
    simp [commit_and_rebind_open_dbs, primeAll_ptr, Transaction.new_from_ptr, h,
      Except.map]
    exact congrArg (List.map Database.new_from_ptr) (primeAll_primedDbis p dbis)
  · intro h
    simp [commit_and_rebind_open_dbs, primeAll_ptr, Transaction.new_from_ptr, h,
      Except.map]

/-- C8 witness: priming dbis 5, 7, 5 on a read-only handle and committing
with a succeeding engine returns exactly the handles for 5 and 7, in that
order. -/
theorem C8_witness :
    (commit_and_rebind_open_dbs true (fun _ => 0) ChanState.closed
        (primeAll (Transaction.new_from_ptr 1) [5, 7, 5])).1 =
      Outcome.ok (Except.ok (false,
        [Database.new_from_ptr 5, Database.new_from_ptr 7])) := by
  have h := ((C8_theorem 1 [5, 7, 5] (fun _ => 0) false (Error.Code 7)
    ChanState.closed).2.2.1).1 (by decide)
  rw [h]
  simp [firstPrimedOrder_cons, firstPrimedOrder_nil]

/-- C9: nested begin (defined only on the read-write, non-write-map handle
in the source) sends a Begin message carrying the parent pointer and the
read-write open flags, blocks on the receive, and on a success reply builds
the child handle from the returned pointer with committed false and an
empty primed set; an error reply propagates. -/
theorem C9_theorem (st : TxnState) (e : Error) (p : Nat) :
    ((begin_nested_txn (ChanState.reply (Except.ok p)) st).1 =
        Outcome.ok (Except.ok { ptr := p, primedDbis := [], committed := false }) ∧
      (begin_nested_txn (ChanState.reply (Except.ok p)) st).2 =
        [Event.lock, Event.send (Msg.Begin st.ptr MDBX_TXN_READWRITE), Event.recv,
          Event.unlock]) ∧
    (begin_nested_txn (ChanState.reply (Except.error e)) st).1 =
      Outcome.ok (Except.error e) := by
  exact ⟨⟨rfl, rfl⟩, rfl⟩

/-- C9 witness: nested begin at a concrete parent with child pointer 9
returns the fresh child handle. -/
theorem C9_witness :
    (begin_nested_txn (ChanState.reply (Except.ok 9)) (Transaction.new_from_ptr 2)).1 =
      Outcome.ok (Except.ok { ptr := 9, primedDbis := [], committed := false }) :=
  ((C9_theorem (Transaction.new_from_ptr 2) Error.NotFound 9).1).1

/-- C10: db_flags applies the truncating bit conversion to the engine
reported flags: on engine success it returns the flags masked to the known
set, any bits outside the known set are dropped rather than preserved, and
their presence never causes an error. -/
theorem C10_theorem (dbiFlagsEx : Nat → Nat → Int × Nat) (st : TxnState) (dbi : Nat)
    (unknown : Nat) (hunk : unknown &&& DatabaseFlags_all = 0)
    (hrc : (dbiFlagsEx st.ptr dbi).1 = MDBX_SUCCESS) :
    db_flags dbiFlagsEx st dbi =
      Except.ok (from_bits_truncate (dbiFlagsEx st.ptr dbi).2) ∧
    from_bits_truncate ((dbiFlagsEx st.ptr dbi).2 ||| unknown) =
      from_bits_truncate (dbiFlagsEx st.ptr dbi).2 ∧
    from_bits_truncate (dbiFlagsEx st.ptr dbi).2 &&& unknown = 0 := by
  have hbit : ∀ i : Nat, (unknown.testBit i && DatabaseFlags_all.testBit i) = false := by
    intro i
    have hz : (unknown &&& DatabaseFlags_all).testBit i = false := by
      rw [hunk]
      exact Nat.zero_testBit i
    rw [Nat.testBit_and] at hz
    exact hz
  refine ⟨?_, ?_, ?_⟩
  · simp [db_flags, hrc, mdbx_result, MDBX_SUCCESS, Except.map]
  · apply Nat.eq_of_testBit_eq
    intro i
    have h := hbit i
    simp only [from_bits_truncate, Nat.testBit_and, Nat.testBit_or]
    cases hf : ((dbiFlagsEx st.ptr dbi).2).testBit i <;>
      cases hu : unknown.testBit i <;>
      cases hm : DatabaseFlags_all.testBit i <;> simp_all
  · apply Nat.eq_of_testBit_eq
    intro i
    have h := hbit i
    simp only [from_bits_truncate, Nat.testBit_and, Nat.zero_testBit]
    cases hf : ((dbiFlagsEx st.ptr dbi).2).testBit i <;>
      cases hu : unknown.testBit i <;>
      cases hm : DatabaseFlags_all.testBit i <;> simp_all

/-- C10 witness: an engine reporting flag word 0x1000004 (dup-sort plus an
unknown bit) yields just the dup-sort bit, with no error. -/
theorem C10_witness :
    db_flags (fun _ _ => (MDBX_SUCCESS, 0x1000004)) (Transaction.new_from_ptr 1) 3 =
      Except.ok 0x04 := by
  have h := (C10_theorem (fun _ _ => (MDBX_SUCCESS, 0x1000004))
    (Transaction.new_from_ptr 1) 3 0x1000000 (by decide) rfl).1
  rw [h]
  decide

end Mdbx
